import Mathlib

/-!
# Shallow embedding of `retraigo/duration.js`

This file embeds the duration value type of the repository (canonical
version: the `Duration` class of `src/unnamed/part_003`, first document,
together with `src/src/in_words.ts`) and proves the claims C1-C10 about it.

Modelling conventions:
* JavaScript numbers are modelled as exact rationals (`ℚ`); `Math.trunc`
  is truncation toward zero (`ratTrunc`), and the JS `%` operator on
  integral values is the truncated remainder `Int.tmod` (sign of the
  dividend), matching JS semantics.
* JS strings are modelled as `List Char`; `toLowerCase` is ASCII
  lowercasing, `\s` is the usual whitespace class.
* The regex `(-?\d+(?:\.\d+)?)\s?UNIT(?:[^a-z]|$)` of `matchUnit` is
  modelled by a leftmost-first scan (`findMatch`): at each start position
  the greedy deterministic match is attempted.  Greedy backtracking inside
  `\d+`/`(?:\.\d+)?` can never change the outcome here because a shortened
  digit run is followed by a digit, which can start neither `\.`, `\s?`
  nor a unit token (units begin with a letter or 'µ'), so the maximal-run
  model is exact.
* A thrown JS exception is modelled by `Option`/`Except` `none`/`error`.
-/

/-! ## Characters and strings -/

/-- JS `\s` whitespace class (ASCII part, which is all the repository uses). -/
def isWhite (c : Char) : Bool :=
  c = ' ' || c = '\t' || c = '\n' || c = '\r' || c = '\x0b' || c = '\x0c'

/-- A letter in the sense of the character class `[^a-z]` under the `i` flag:
the class excludes both lowercase and uppercase ASCII letters. -/
def isAsciiLetter (c : Char) : Bool :=
  ('a' ≤ c && c ≤ 'z') || ('A' ≤ c && c ≤ 'Z')

/-- ASCII decimal digit, the `\d` class. -/
def isDigitC (c : Char) : Bool :=
  '0' ≤ c && c ≤ '9'

/-- ASCII `toLowerCase` on one character. -/
def lowerC (c : Char) : Char :=
  if 'A' ≤ c && c ≤ 'Z' then Char.ofNat (c.toNat + 32) else c

/-- `String.prototype.toLowerCase`. -/
def lowerStr (s : List Char) : List Char := s.map lowerC

/-- Match the token `t` case-insensitively at the head of `s`;
on success return the remaining characters. -/
def dropTokenCI : List Char → List Char → Option (List Char)
  | [], s => some s
  | _ :: _, [] => none
  | t :: ts, c :: cs => if lowerC c = lowerC t then dropTokenCI ts cs else none

/-- The trailing guard `(?:[^a-z]|$)`: end of input or a non-letter. -/
def guardOk : List Char → Bool
  | [] => true
  | c :: _ => !isAsciiLetter c

/-- Token `t` (case-insensitive) followed by the trailing guard. -/
def tokenAndGuard (t s : List Char) : Bool :=
  match dropTokenCI t s with
  | none => false
  | some r => guardOk r

/-- Maximal run of digits (greedy `\d+` / `\d*`). -/
def digitSpan (s : List Char) : List Char × List Char :=
  (s.takeWhile isDigitC, s.dropWhile isDigitC)

/-- The number part `-?\d+(?:\.\d+)?` anchored at the head of `s`:
returns the captured characters and the rest. -/
def numSpan (s : List Char) : Option (List Char × List Char) :=
  match s with
  | '-' :: r =>
    match digitSpan r with
    | ([], _) => none
    | (ds, r1) =>
      match r1 with
      | '.' :: r2 =>
        match digitSpan r2 with
        | ([], _) => some ('-' :: ds, r1)
        | (fs, r3) => some ('-' :: ds ++ '.' :: fs, r3)
      | _ => some ('-' :: ds, r1)
  | _ =>
    match digitSpan s with
    | ([], _) => none
    | (ds, r1) =>
      match r1 with
      | '.' :: r2 =>
        match digitSpan r2 with
        | ([], _) => some (ds, r1)
        | (fs, r3) => some (ds ++ '.' :: fs, r3)
      | _ => some (ds, r1)

/-- After the number: greedy `\s?` (try consuming one whitespace first,
then without), then the token and its guard. -/
def afterNum (t rest : List Char) : Bool :=
  match rest with
  | c :: r => if isWhite c then tokenAndGuard t r || tokenAndGuard t rest else tokenAndGuard t rest
  | [] => tokenAndGuard t []

/-- One anchored attempt of `(-?\d+(?:\.\d+)?)\s?t(?:[^a-z]|$)` at the head
of `s`; returns the capture group on success. -/
def anchoredMatch (t s : List Char) : Option (List Char) :=
  match numSpan s with
  | none => none
  | some (cap, rest) => if afterNum t rest then some cap else none

/-- `RegExp.exec`: leftmost match of the `matchUnit` pattern. -/
def findMatch (t : List Char) : List Char → Option (List Char)
  | [] => anchoredMatch t []
  | c :: r =>
    match anchoredMatch t (c :: r) with
    | some cap => some cap
    | none => findMatch t r

/-- Decimal digits to a natural number. -/
def digitsToNat (ds : List Char) : Nat :=
  ds.foldl (fun acc c => acc * 10 + (c.toNat - 48)) 0

/-- `Number()` on an unsigned capture `\d+(\.\d+)?`. -/
def parseDecPos (cap : List Char) : ℚ :=
  match cap.dropWhile isDigitC with
  | '.' :: fs => (digitsToNat (cap.takeWhile isDigitC) : ℚ) + (digitsToNat fs : ℚ) / (10 ^ fs.length : ℚ)
  | _ => (digitsToNat (cap.takeWhile isDigitC) : ℚ)

/-- `Number()` on a capture of the shape `-?\d+(\.\d+)?`.
(The source applies `.replace(t, "")` to the capture first, which is a
no-op: the capture consists of digits, `-` and `.` only, and every unit
token contains a letter or `µ`.) -/
def parseDec : List Char → ℚ
  | '-' :: r => -(parseDecPos r)
  | cap => parseDecPos cap

/-- `str.replace(/\s\s/g, "")`: every non-overlapping pair of consecutive
whitespace characters is removed, scanning left to right. -/
def collapseWs : List Char → List Char
  | [] => []
  | [c] => [c]
  | c1 :: c2 :: rest =>
    if isWhite c1 && isWhite c2 then collapseWs rest
    else c1 :: collapseWs (c2 :: rest)

/-- JS `a || b` on numbers whose only falsy values here are `0` and `-0`
(`matchUnit` never returns `NaN`); in `ℚ` both are `0`. -/
def orQ (a b : ℚ) : ℚ := if a ≠ 0 then a else b

/-- `String.prototype.split(sep)` for a one-character separator. -/
def splitOnC (sep : Char) : List Char → List (List Char)
  | [] => [[]]
  | c :: r =>
    if c = sep then [] :: splitOnC sep r
    else
      match splitOnC sep r with
      | [] => [[c]]
      | h :: t => (c :: h) :: t

/-! ## Duration core -/

/-- `Math.trunc`: truncation toward zero.  For a rational `num / den`
(`den > 0`) this is the T-division of numerator by denominator. -/
def ratTrunc (q : ℚ) : ℤ := q.num.tdiv q.den

/-- The `Duration` class.  Only `raw` is stored (total milliseconds,
signed, possibly fractional); every unit is derived from it. -/
structure Duration where
  raw : ℚ
deriving DecidableEq

namespace Duration

/-- `static MICROSECOND = 1 / 1_000` (milliseconds in a microsecond). -/
def MICROSECOND : ℚ := 1 / 1000
/-- `static NANOSECOND = Duration.MICROSECOND / 1_000`. -/
def NANOSECOND : ℚ := MICROSECOND / 1000
/-- `static MILLISECOND = 1`. -/
def MILLISECOND : ℚ := 1
/-- `static SECOND = 1_000`. -/
def SECOND : ℚ := 1000
/-- `static MINUTE = Duration.SECOND * 60`. -/
def MINUTE : ℚ := SECOND * 60
/-- `static HOUR = Duration.MINUTE * 60`. -/
def HOUR : ℚ := MINUTE * 60
/-- `static DAY = Duration.HOUR * 24`. -/
def DAY : ℚ := HOUR * 24

/-- `get d()`: `Math.trunc(this.raw / 8.64e7)`. -/
def d (x : Duration) : ℤ := ratTrunc (x.raw / 86400000)

/-- `get h()`: `Math.trunc(this.raw / 3_600_000) % 24`. -/
def h (x : Duration) : ℤ := Int.tmod (ratTrunc (x.raw / 3600000)) 24

/-- `get m()`: `Math.trunc(this.raw / 60_000) % 60`. -/
def m (x : Duration) : ℤ := Int.tmod (ratTrunc (x.raw / 60000)) 60

/-- `get s()`: `Math.trunc(this.raw / 1_000) % 60`. -/
def s (x : Duration) : ℤ := Int.tmod (ratTrunc (x.raw / 1000)) 60

/-- `get ms()`: `Math.trunc(this.raw) % 1_000`. -/
def ms (x : Duration) : ℤ := Int.tmod (ratTrunc x.raw) 1000

/-- `get us()`: `Math.trunc(this.raw * 1_000) % 1000`. -/
def us (x : Duration) : ℤ := Int.tmod (ratTrunc (x.raw * 1000)) 1000

/-- `get ns()`: `Math.trunc(this.raw * 1_000_000) % 1000`. -/
def ns (x : Duration) : ℤ := Int.tmod (ratTrunc (x.raw * 1000000)) 1000

/-- `setDays(n)`: `this.raw += (n - this.d) * Duration.DAY`. -/
def setDays (x : Duration) (n : ℚ) : Duration := ⟨x.raw + (n - x.d) * DAY⟩

/-- `setHours(n)`: `this.raw += (n - this.h) * Duration.HOUR`. -/
def setHours (x : Duration) (n : ℚ) : Duration := ⟨x.raw + (n - x.h) * HOUR⟩

/-- `setMinutes(n)`: `this.raw += (n - this.m) * Duration.MINUTE`. -/
def setMinutes (x : Duration) (n : ℚ) : Duration := ⟨x.raw + (n - x.m) * MINUTE⟩

/-- `setSeconds(n)`: `this.raw += (n - this.s) * Duration.SECOND`. -/
def setSeconds (x : Duration) (n : ℚ) : Duration := ⟨x.raw + (n - x.s) * SECOND⟩

/-- `setMilliseconds(n)`: `this.raw += (n - this.ms) * Duration.MILLISECOND`. -/
def setMilliseconds (x : Duration) (n : ℚ) : Duration := ⟨x.raw + (n - x.ms) * MILLISECOND⟩

/-- `setMicroseconds(n)`: `this.raw += (n - this.us) * Duration.MICROSECOND`. -/
def setMicroseconds (x : Duration) (n : ℚ) : Duration := ⟨x.raw + (n - x.us) * MICROSECOND⟩

/-- `setNanoseconds(n)`: `this.raw += (n - this.ns) * Duration.NANOSECOND`. -/
def setNanoseconds (x : Duration) (n : ℚ) : Duration := ⟨x.raw + (n - x.ns) * NANOSECOND⟩

/-- `static between(duration1, duration2)` on two already-constructed
durations (the other input kinds are first coerced through the
constructor): `new Duration(myDuration1.raw - myDuration2.raw)`. -/
def between (a b : Duration) : Duration := ⟨a.raw - b.raw⟩

/-- `minus(that)`: `Duration.between(this, that)`. -/
def minus (a b : Duration) : Duration := between a b

/-- `plus(that)`: `new Duration(this.raw + thatDuration.raw)`. -/
def plus (a b : Duration) : Duration := ⟨a.raw + b.raw⟩

end Duration

/-- The §3 reconstruction formula
`d*86_400_000 + h*3_600_000 + m*60_000 + s*1_000 + ms + us/1_000 + ns/1_000_000`
applied to the seven derived unit values of a duration. -/
def reconstructRaw (x : Duration) : ℚ :=
  (x.d : ℚ) * 86400000 + (x.h : ℚ) * 3600000 + (x.m : ℚ) * 60000 +
    (x.s : ℚ) * 1000 + (x.ms : ℚ) + (x.us : ℚ) / 1000 + (x.ns : ℚ) / 1000000

/-! ## Free-form text parser -/

/-- The object returned by `Duration.#readString`. -/
structure DurationObjWithRaw where
  raw : ℚ
  d : ℚ
  h : ℚ
  m : ℚ
  s : ℚ
  ms : ℚ
  ns : ℚ
  us : ℚ
deriving DecidableEq

/-- `matchUnit(str, t)`: first match of
`(-?\d+(?:\.\d+)?)\s?t(?:[^a-z]|$)` (flag `i`) in `str`, its captured
number converted by `Number`, or `0` when there is no match. -/
def matchUnit (str t : List Char) : ℚ :=
  match findMatch t str with
  | none => 0
  | some cap => parseDec cap

/-- An alias chain `matchUnit(str, t1) || matchUnit(str, t2) || ...`. -/
def unitValue (str : List Char) : List (List Char) → ℚ
  | [] => 0
  | t :: ts => orQ (matchUnit str t) (unitValue str ts)

namespace Duration

/-- `static #readString(str)`: collapse double whitespace, scan each unit
through its alias chain, and combine with the weighted sum. -/
def readString (str0 : List Char) : DurationObjWithRaw :=
  let str := collapseWs str0
  let days := unitValue str ["d".data, "days".data, "day".data]
  let hours := unitValue str ["h".data, "hours".data, "hour".data]
  let minutes := unitValue str ["m".data, "min".data, "minute".data, "mins".data, "minutes".data]
  let seconds := unitValue str ["s".data, "sec".data, "second".data, "secs".data, "seconds".data]
  let milliseconds := unitValue str ["ms".data, "millisecond".data, "milliseconds".data]
  let nanoseconds := unitValue str ["ns".data, "nanosecond".data, "nanoseconds".data]
  let microseconds := unitValue str ["µs".data, "microsecond".data, "microseconds".data, "us".data]
  { raw := days * DAY + hours * HOUR + minutes * MINUTE + seconds * SECOND +
      milliseconds + microseconds * MICROSECOND + nanoseconds * NANOSECOND
    d := days, h := hours, m := minutes, s := seconds
    ms := milliseconds, ns := nanoseconds, us := microseconds }

/-- `static parseISOString(isoString)`, with a structural fuel argument in
place of the source's recursion through the constructor
(`new Duration(components[i])`); `parseISOString` below instantiates the
fuel with a provably sufficient value.  `none` models the thrown
`Error`s; the recursive occurrence `match parseISOFuel fuel c with ...`
is exactly the constructor body (try ISO, fall back to `readString`). -/
def parseISOFuel : ℕ → List Char → Option ℚ
  | 0, _ => none
  | fuel + 1, str =>
    if ((lowerStr str).head? = some 'p') ∧ ('t' ∈ lowerStr str) then
      if ('y' ∈ (splitOnC 't' ((lowerStr str).drop 1)).headD []) ∨
          ('m' ∈ (splitOnC 't' ((lowerStr str).drop 1)).headD []) then none
      else
        some (
          (match (splitOnC 't' ((lowerStr str).drop 1))[1]? with
            | some c =>
              match parseISOFuel fuel c with
              | some r => r
              | none => (readString c).raw
            | none => 0) +
          (match (splitOnC 't' ((lowerStr str).drop 1))[2]? with
            | some c =>
              match parseISOFuel fuel c with
              | some r => r
              | none => (readString c).raw
            | none => 0))
    else none

/-- `static parseISOString(isoString)`: throws (`none`) unless the
lowercased string starts with `p` and contains `t`, or when the part
before the first `t` contains `y` or `m`; otherwise the parts after the
`t`s are parsed through the constructor and summed. -/
def parseISOString (str : List Char) : Option ℚ :=
  parseISOFuel (str.length + 1) str

/-- The string case of the constructor:
`try { raw = Duration.parseISOString(s) } catch { raw = Duration.#readString(s).raw }`. -/
def ofString (str : List Char) : Duration :=
  ⟨match parseISOString str with
    | some r => r
    | none => (readString str).raw⟩

/-- The same constructor case with its exception behaviour made explicit:
both branches return normally, the catch handler never rethrows. -/
def ofStringE (str : List Char) : Except String Duration :=
  match parseISOString str with
  | some r => Except.ok ⟨r⟩
  | none => Except.ok ⟨(readString str).raw⟩

end Duration

/-! ## Rendering helpers -/

/-- Is `pat` a leading segment of the second list? -/
def startsWithL : List Char → List Char → Bool
  | [], _ => true
  | _ :: _, [] => false
  | p :: ps, c :: cs => p = c && startsWithL ps cs

/-- Does the second list contain `pat` as a contiguous segment?
(`String.prototype.includes`). -/
def containsSeg (pat : List Char) : List Char → Bool
  | [] => startsWithL pat []
  | c :: r => startsWithL pat (c :: r) || containsSeg pat r

/-- `String.prototype.replace(pat, rep)` with a string pattern:
replace the first occurrence only. -/
def replaceFirstSeg (pat rep : List Char) : List Char → List Char
  | [] => []
  | c :: r =>
    if startsWithL pat (c :: r) then rep ++ (c :: r).drop pat.length
    else c :: replaceFirstSeg pat rep r

/-- `.replace(/\{ones\}\s?/, "")`: drop the first `{ones}` together with
one optional following whitespace character. -/
def stripOnesWs : List Char → List Char
  | [] => []
  | c :: r =>
    if startsWithL "{ones}".data (c :: r) then
      match (c :: r).drop 6 with
      | w :: r2 => if isWhite w then r2 else w :: r2
      | [] => []
    else c :: stripOnesWs r

/-- `Array.prototype.join(sep)`. -/
def joinSep (sep : List Char) : List (List Char) → List Char
  | [] => []
  | [x] => x
  | x :: xs => x ++ sep ++ joinSep sep xs

/-- `String.prototype.trim()`. -/
def trimChars (l : List Char) : List Char :=
  ((l.dropWhile isWhite).reverse.dropWhile isWhite).reverse

def digitChar (n : ℕ) : Char := Char.ofNat (48 + n)

/-- Decimal rendering of a natural number (JS `Number.prototype.toString`
on an integral value), with structural fuel (`n + 1` digits always
suffice). -/
def natCharsAux : ℕ → ℕ → List Char
  | 0, _ => []
  | fuel + 1, n => if n < 10 then [digitChar n] else natCharsAux fuel (n / 10) ++ [digitChar (n % 10)]

def natChars (n : ℕ) : List Char := natCharsAux (n + 1) n

/-- Decimal rendering of an integer. -/
def intChars (i : ℤ) : List Char :=
  if i < 0 then '-' :: natChars i.natAbs else natChars i.natAbs

namespace Duration

/-- `toISOString()`: `P`, the day part when nonzero, `T`, then the
nonzero time parts, seconds emitted as `{s}.{ms}S` when either is
nonzero. -/
def toISOString (x : Duration) : List Char :=
  "P".data ++ (if x.d ≠ 0 then intChars x.d ++ "D".data else []) ++
    "T".data ++
    (if x.h ≠ 0 then intChars x.h ++ "H".data else []) ++
    (if x.m ≠ 0 then intChars x.m ++ "M".data else []) ++
    (if x.s ≠ 0 ∨ x.ms ≠ 0 then intChars x.s ++ ['.'] ++ intChars x.ms ++ "S".data else [])

end Duration

/-! ## Number-to-words renderer (`src/src/in_words.ts`) -/

/-- Digit names (`digits` table); index 0 is the empty string. -/
def digits : List (List Char) :=
  ["".data, "one".data, "two".data, "three".data, "four".data, "five".data,
    "six".data, "seven".data, "eight".data, "nine".data]

/-- Teen names (`teens` table); index 0 is the empty string. -/
def teens : List (List Char) :=
  ["".data, "eleven".data, "twelve".data, "thirteen".data, "fourteen".data,
    "fifteen".data, "sixteen".data, "seventeen".data, "eighteen".data, "nineteen".data]

/-- Tens names (`tens` table); index 0 is the empty string. -/
def tens : List (List Char) :=
  ["".data, "ten".data, "twenty".data, "thirty".data, "forty".data, "fifty".data,
    "sixty".data, "seventy".data, "eighty".data, "ninety".data]

/-- The seventeen positional templates (`tenPowers`, short-scale table). -/
def tenPowers : List (List Char) :=
  ["{ones}".data, "{tens}".data, "{ones} hundred and".data,
    "{ones} thousand,".data, "{tens}".data, "{ones} hundred and".data,
    "{ones} million,".data, "{tens}".data, "{ones} hundred and".data,
    "{ones} billion,".data, "{tens}".data, "{ones} hundred and".data,
    "{ones} trillion,".data, "{tens}".data, "{ones} hundred and".data,
    "{ones} thousand,".data, "{tens}".data]

/-- `getTenPower(i)`: the template for decimal place `i`, the table
cycling with period 17. -/
def getTenPower (i : ℕ) : List Char := tenPowers.getD (i % tenPowers.length) []

/-- `n.toString().split("").map(Number).reverse()`: little-endian decimal
digits. -/
def digitsOf (n : ℕ) : List ℕ := ((natChars n).map (fun c => c.toNat - 48)).reverse

/-- The for-loop of the renderer over the little-endian digits, `i` the
current place.  When the next place is a `{tens}` template and the next
digit is exactly 1, the teen entry consumes both digits at once
(`++i; continue`); otherwise the generic per-place entry substitutes the
digit name into `{ones}` and the tens name into `{tens}`. -/
def wordsAux : ℕ → List ℕ → List (List Char)
  | _, [] => []
  | i, [dg] =>
    [replaceFirstSeg "{tens}".data (tens.getD dg [])
      (replaceFirstSeg "{ones}".data (digits.getD dg []) (getTenPower i))]
  | i, dg :: nxt :: rest =>
    if startsWithL "{tens}".data (getTenPower (i + 1)) = true ∧ nxt = 1 then
      (teens.getD dg [] ++ ' ' :: stripOnesWs (getTenPower i)) :: wordsAux (i + 2) rest
    else
      (replaceFirstSeg "{tens}".data (tens.getD dg [])
        (replaceFirstSeg "{ones}".data (digits.getD dg []) (getTenPower i))) ::
        wordsAux (i + 1) (nxt :: rest)

/-- The default export of `in_words.ts` on the natural numbers (the
renderer's specified domain: non-negative integral unit values): `0` maps
to `"zero"`, otherwise the per-place entries are assembled
most-significant first and space-joined. -/
def InWords (n : ℕ) : List Char :=
  if n = 0 then "zero".data
  else joinSep " ".data ((wordsAux 0 (digitsOf n)).reverse)

namespace Duration

/-- `get array()` mapped through `keyList`: the seven units in fixed
order with their full names. -/
def unitList (x : Duration) : List (ℤ × List Char) :=
  [(x.d, "days".data), (x.h, "hours".data), (x.m, "minutes".data),
    (x.s, "seconds".data), (x.ms, "milliseconds".data),
    (x.us, "microseconds".data), (x.ns, "nanoseconds".data)]

/-- `toWordString()` with no argument (`values = []`): every unit is
rendered as `${InWords(value).trim()} ${name}`, the unit name made
singular exactly when the value is `1`, comma-joined. -/
def toWordString (x : Duration) : List Char :=
  joinSep ", ".data (x.unitList.map (fun p =>
    trimChars (InWords p.1.toNat) ++ ' ' :: (if p.1 = 1 then p.2.dropLast else p.2)))

end Duration

/-! ## Truncation lemmas -/

lemma ratTrunc_intCast (k : ℤ) : ratTrunc (k : ℚ) = k := by
  simp [ratTrunc, Rat.num_intCast, Rat.den_intCast, Int.tdiv_one]

lemma ratTrunc_neg (q : ℚ) : ratTrunc (-q) = -ratTrunc q := by
  simp [ratTrunc, Rat.num_neg_eq_neg_num, Rat.den_neg_eq_den, Int.neg_tdiv]

lemma ratTrunc_eq_floor_of_nonneg (q : ℚ) (hq : 0 ≤ q) : ratTrunc q = ⌊q⌋ := by
  rw [Rat.floor_def, ratTrunc]
  exact Int.tdiv_eq_ediv (Rat.num_nonneg.mpr hq) (Int.natCast_nonneg _)

/-- `Math.trunc` of an integer divided by a positive natural number is
T-division. -/
lemma ratTrunc_intCast_div_natCast (a : ℤ) (n : ℕ) :
    ratTrunc ((a : ℚ) / (n : ℚ)) = a.tdiv n := by
  rcases le_or_lt 0 a with ha | ha
  · rw [ratTrunc_eq_floor_of_nonneg _ (div_nonneg (by exact_mod_cast ha) (by positivity)),
      Rat.floor_intCast_div_natCast]
    exact (Int.tdiv_eq_ediv ha (Int.natCast_nonneg n)).symm
  · have hna : (0:ℤ) ≤ -a := by omega
    have h1 : (a : ℚ) / (n : ℚ) = -(((-a : ℤ) : ℚ) / (n : ℚ)) := by push_cast; ring
    rw [h1, ratTrunc_neg, ratTrunc_eq_floor_of_nonneg _
        (div_nonneg (by exact_mod_cast hna) (by positivity)),
      Rat.floor_intCast_div_natCast, ← Int.tdiv_eq_ediv hna (Int.natCast_nonneg n),
      Int.neg_tdiv, neg_neg]

lemma tdiv_tdiv (a : ℤ) (b c : ℕ) : (a.tdiv ↑b).tdiv ↑c = a.tdiv (↑(b * c) : ℤ) := by
  have key : ∀ p : ℕ, (((p:ℤ)).tdiv ↑b).tdiv ↑c = ((p:ℤ)).tdiv ↑(b * c) := by
    intro p
    rw [← Int.ofNat_tdiv, ← Int.ofNat_tdiv, ← Int.ofNat_tdiv, Nat.div_div_eq_div_mul]
  rcases Int.natAbs_eq a with ha | ha
  · rw [ha, key]
  · rw [ha, Int.neg_tdiv, Int.neg_tdiv, Int.neg_tdiv, key]

/-- Base-decomposition telescope for T-division and T-remainder at the
seven unit scales (everything in nanosecond-scaled integers). -/
lemma tdiv_telescope_ns (k : ℤ) :
    (k.tdiv 86400000000000) * 86400000000000
      + ((k.tdiv 3600000000000).tmod 24) * 3600000000000
      + ((k.tdiv 60000000000).tmod 60) * 60000000000
      + ((k.tdiv 1000000000).tmod 60) * 1000000000
      + ((k.tdiv 1000000).tmod 1000) * 1000000
      + ((k.tdiv 1000).tmod 1000) * 1000
      + k.tmod 1000 = k := by
  have e0 := Int.tdiv_add_tmod k 1000
  have e1 := Int.tdiv_add_tmod (k.tdiv 1000) 1000
  have e2 := Int.tdiv_add_tmod (k.tdiv 1000000) 1000
  have e3 := Int.tdiv_add_tmod (k.tdiv 1000000000) 60
  have e4 := Int.tdiv_add_tmod (k.tdiv 60000000000) 60
  have e5 := Int.tdiv_add_tmod (k.tdiv 3600000000000) 24
  have t1 : (k.tdiv 1000).tdiv 1000 = k.tdiv 1000000 := by
    rw [show ((1000:ℤ)) = ((1000:ℕ):ℤ) from rfl, tdiv_tdiv]; norm_num
  have t2 : (k.tdiv 1000000).tdiv 1000 = k.tdiv 1000000000 := by
    rw [show ((1000000:ℤ)) = ((1000000:ℕ):ℤ) from rfl,
      show ((1000:ℤ)) = ((1000:ℕ):ℤ) from rfl, tdiv_tdiv]; norm_num
  have t3 : (k.tdiv 1000000000).tdiv 60 = k.tdiv 60000000000 := by
    rw [show ((1000000000:ℤ)) = ((1000000000:ℕ):ℤ) from rfl,
      show ((60:ℤ)) = ((60:ℕ):ℤ) from rfl, tdiv_tdiv]; norm_num
  have t4 : (k.tdiv 60000000000).tdiv 60 = k.tdiv 3600000000000 := by
    rw [show ((60000000000:ℤ)) = ((60000000000:ℕ):ℤ) from rfl,
      show ((60:ℤ)) = ((60:ℕ):ℤ) from rfl, tdiv_tdiv]; norm_num
  have t5 : (k.tdiv 3600000000000).tdiv 24 = k.tdiv 86400000000000 := by
    rw [show ((3600000000000:ℤ)) = ((3600000000000:ℕ):ℤ) from rfl,
      show ((24:ℤ)) = ((24:ℕ):ℤ) from rfl, tdiv_tdiv]; norm_num
  rw [t1] at e1
  rw [t2] at e2
  rw [t3] at e3
  rw [t4] at e4
  rw [t5] at e5
  linarith [e0, e1, e2, e3, e4, e5]

/-! ## Getter evaluation on nanosecond-grained magnitudes -/

lemma d_eval_ns (k : ℤ) : Duration.d ⟨(k : ℚ) / 1000000⟩ = k.tdiv 86400000000000 := by
  rw [Duration.d, show ((k : ℚ) / 1000000) / 86400000 = (k : ℚ) / ((86400000000000 : ℕ) : ℚ) by
    push_cast; ring, ratTrunc_intCast_div_natCast]
  norm_num

lemma h_eval_ns (k : ℤ) : Duration.h ⟨(k : ℚ) / 1000000⟩ = (k.tdiv 3600000000000).tmod 24 := by
  rw [Duration.h, show ((k : ℚ) / 1000000) / 3600000 = (k : ℚ) / ((3600000000000 : ℕ) : ℚ) by
    push_cast; ring, ratTrunc_intCast_div_natCast]
  norm_num

lemma m_eval_ns (k : ℤ) : Duration.m ⟨(k : ℚ) / 1000000⟩ = (k.tdiv 60000000000).tmod 60 := by
  rw [Duration.m, show ((k : ℚ) / 1000000) / 60000 = (k : ℚ) / ((60000000000 : ℕ) : ℚ) by
    push_cast; ring, ratTrunc_intCast_div_natCast]
  norm_num

lemma s_eval_ns (k : ℤ) : Duration.s ⟨(k : ℚ) / 1000000⟩ = (k.tdiv 1000000000).tmod 60 := by
  rw [Duration.s, show ((k : ℚ) / 1000000) / 1000 = (k : ℚ) / ((1000000000 : ℕ) : ℚ) by
    push_cast; ring, ratTrunc_intCast_div_natCast]
  norm_num

lemma ms_eval_ns (k : ℤ) : Duration.ms ⟨(k : ℚ) / 1000000⟩ = (k.tdiv 1000000).tmod 1000 := by
  rw [Duration.ms, show ((k : ℚ) / 1000000) = (k : ℚ) / ((1000000 : ℕ) : ℚ) by
    norm_num, ratTrunc_intCast_div_natCast]
  norm_num

lemma us_eval_ns (k : ℤ) : Duration.us ⟨(k : ℚ) / 1000000⟩ = (k.tdiv 1000).tmod 1000 := by
  rw [Duration.us, show ((k : ℚ) / 1000000) * 1000 = (k : ℚ) / ((1000 : ℕ) : ℚ) by
    push_cast; ring, ratTrunc_intCast_div_natCast]
  norm_num

lemma ns_eval_ns (k : ℤ) : Duration.ns ⟨(k : ℚ) / 1000000⟩ = k.tmod 1000 := by
  rw [Duration.ns, show ((k : ℚ) / 1000000) * 1000000 = ((k : ℤ) : ℚ) by
    ring, ratTrunc_intCast]

/-- C1.  For every duration whose magnitude is an exact multiple of one
nanosecond (`raw = k / 1_000_000` milliseconds, `k : ℤ`, covering negative
and fractional-millisecond magnitudes — the granularity at which the seven
derived units are defined, so that "up to floating-point rounding" becomes
exact equality), the reconstruction
`d*86_400_000 + h*3_600_000 + m*60_000 + s*1_000 + ms + us/1_000 + ns/1_000_000`
recovers `raw` exactly. -/
theorem reconstructRaw_roundtrip (k : ℤ) :
    reconstructRaw ⟨(k : ℚ) / 1000000⟩ = (k : ℚ) / 1000000 := by
  rw [reconstructRaw, d_eval_ns, h_eval_ns, m_eval_ns, s_eval_ns, ms_eval_ns,
    us_eval_ns, ns_eval_ns]
  have keyQ : ((k.tdiv 86400000000000 : ℤ) : ℚ) * 86400000000000
      + (((k.tdiv 3600000000000).tmod 24 : ℤ) : ℚ) * 3600000000000
      + (((k.tdiv 60000000000).tmod 60 : ℤ) : ℚ) * 60000000000
      + (((k.tdiv 1000000000).tmod 60 : ℤ) : ℚ) * 1000000000
      + (((k.tdiv 1000000).tmod 1000 : ℤ) : ℚ) * 1000000
      + (((k.tdiv 1000).tmod 1000 : ℤ) : ℚ) * 1000
      + ((k.tmod 1000 : ℤ) : ℚ) = (k : ℚ) := by
    exact_mod_cast tdiv_telescope_ns k
  linear_combination keyQ / 1000000

/-- C2.  Each of the seven setters changes `raw` by exactly
`(n - current(U)) * unitSizeInMs(U)` (and nothing else is stored), and
setting a unit to its current value is an exact no-op; in particular
`d.setHours(d.hours)` leaves `d.raw` unchanged. -/
theorem setters_exact (x : Duration) (n : ℚ) :
    ((x.setDays n).raw - x.raw = (n - x.d) * Duration.DAY ∧
      (x.setHours n).raw - x.raw = (n - x.h) * Duration.HOUR ∧
      (x.setMinutes n).raw - x.raw = (n - x.m) * Duration.MINUTE ∧
      (x.setSeconds n).raw - x.raw = (n - x.s) * Duration.SECOND ∧
      (x.setMilliseconds n).raw - x.raw = (n - x.ms) * Duration.MILLISECOND ∧
      (x.setMicroseconds n).raw - x.raw = (n - x.us) * Duration.MICROSECOND ∧
      (x.setNanoseconds n).raw - x.raw = (n - x.ns) * Duration.NANOSECOND) ∧
    (x.setDays (x.d : ℚ) = x ∧
      x.setHours (x.h : ℚ) = x ∧
      x.setMinutes (x.m : ℚ) = x ∧
      x.setSeconds (x.s : ℚ) = x ∧
      x.setMilliseconds (x.ms : ℚ) = x ∧
      x.setMicroseconds (x.us : ℚ) = x ∧
      x.setNanoseconds (x.ns : ℚ) = x) := by
  obtain ⟨r⟩ := x
  refine ⟨⟨?_, ?_, ?_, ?_, ?_, ?_, ?_⟩, ⟨?_, ?_, ?_, ?_, ?_, ?_, ?_⟩⟩ <;>
    · simp only [Duration.setDays, Duration.setHours, Duration.setMinutes,
        Duration.setSeconds, Duration.setMilliseconds, Duration.setMicroseconds,
        Duration.setNanoseconds, Duration.mk.injEq]
      ring

/-- C3.  `minus` delegates to `between`, which in the canonical version
returns the signed difference `a.raw - b.raw` (not an absolute value):
witnessed also on a concrete pair where the result is negative. -/
theorem minus_signed :
    (∀ a b : Duration, (a.minus b).raw = a.raw - b.raw) ∧
    ((Duration.mk 0).minus ⟨5000⟩).raw = -5000 ∧
    ((-5000 : ℚ) ≠ |(0 : ℚ) - 5000|) := by
  refine ⟨fun a b => rfl, ?_, by norm_num⟩
  simp only [Duration.minus, Duration.between]
  norm_num

/-! ## Parser evaluation toolkit -/

lemma matchUnit_none (str t : List Char) (hnm : findMatch t str = none) :
    matchUnit str t = 0 := by
  simp [matchUnit, hnm]

lemma matchUnit_found (str t cap : List Char) (hm : findMatch t str = some cap) :
    matchUnit str t = parseDec cap := by
  simp [matchUnit, hm]

/-- When no alias of a unit matches anywhere in the scanned string, the
whole `||` chain yields `0`. -/
lemma unitValue_zero (str : List Char) (aliases : List (List Char))
    (hall : ∀ t ∈ aliases, findMatch t str = none) :
    unitValue str aliases = 0 := by
  induction aliases with
  | nil => rfl
  | cons t ts ih =>
    rw [unitValue, matchUnit_none _ _ (hall t (by simp)), orQ]
    simp only [ne_eq, not_true_eq_false, if_neg, not_not]
    exact ih (fun u hu => hall u (by simp [hu]))

/-- Unfolding of `readString` in terms of the seven alias-chain values. -/
lemma readString_eval (str0 : List Char) (vd vh vm vs vms vns vus : ℚ)
    (hd : unitValue (collapseWs str0) ["d".data, "days".data, "day".data] = vd)
    (hh : unitValue (collapseWs str0) ["h".data, "hours".data, "hour".data] = vh)
    (hm : unitValue (collapseWs str0)
      ["m".data, "min".data, "minute".data, "mins".data, "minutes".data] = vm)
    (hs : unitValue (collapseWs str0)
      ["s".data, "sec".data, "second".data, "secs".data, "seconds".data] = vs)
    (hms : unitValue (collapseWs str0) ["ms".data, "millisecond".data, "milliseconds".data] = vms)
    (hns : unitValue (collapseWs str0) ["ns".data, "nanosecond".data, "nanoseconds".data] = vns)
    (hus : unitValue (collapseWs str0)
      ["µs".data, "microsecond".data, "microseconds".data, "us".data] = vus) :
    Duration.readString str0 =
      ⟨vd * Duration.DAY + vh * Duration.HOUR + vm * Duration.MINUTE + vs * Duration.SECOND +
        vms + vus * Duration.MICROSECOND + vns * Duration.NANOSECOND,
        vd, vh, vm, vs, vms, vns, vus⟩ := by
  simp only [Duration.readString, hd, hh, hm, hs, hms, hns, hus]


/-- Shared helper: a string in which no alias of any unit matches parses
to the all-zero duration object. -/
lemma readString_all_unmatched (str0 : List Char)
    (hd : ∀ t ∈ ["d".data, "days".data, "day".data], findMatch t (collapseWs str0) = none)
    (hh : ∀ t ∈ ["h".data, "hours".data, "hour".data], findMatch t (collapseWs str0) = none)
    (hm : ∀ t ∈ ["m".data, "min".data, "minute".data, "mins".data, "minutes".data],
      findMatch t (collapseWs str0) = none)
    (hs : ∀ t ∈ ["s".data, "sec".data, "second".data, "secs".data, "seconds".data],
      findMatch t (collapseWs str0) = none)
    (hms : ∀ t ∈ ["ms".data, "millisecond".data, "milliseconds".data],
      findMatch t (collapseWs str0) = none)
    (hns : ∀ t ∈ ["ns".data, "nanosecond".data, "nanoseconds".data],
      findMatch t (collapseWs str0) = none)
    (hus : ∀ t ∈ ["µs".data, "microsecond".data, "microseconds".data, "us".data],
      findMatch t (collapseWs str0) = none) :
    Duration.readString str0 = ⟨0, 0, 0, 0, 0, 0, 0, 0⟩ := by
  rw [readString_eval str0 0 0 0 0 0 0 0 (unitValue_zero _ _ hd) (unitValue_zero _ _ hh)
    (unitValue_zero _ _ hm) (unitValue_zero _ _ hs) (unitValue_zero _ _ hms)
    (unitValue_zero _ _ hns) (unitValue_zero _ _ hus)]
  norm_num [Duration.DAY, Duration.HOUR, Duration.MINUTE, Duration.SECOND,
    Duration.MICROSECOND, Duration.NANOSECOND]

/-- C7.  The free-form scan never fails (it is a total function of the
string; no error is modelled anywhere in it): any unit none of whose
aliases matches contributes exactly zero, and a string in which no alias
of any unit matches yields the all-zero duration object with `raw = 0`. -/
theorem readString_silent_zero (str0 : List Char) :
    ((∀ t ∈ ["d".data, "days".data, "day".data], findMatch t (collapseWs str0) = none) →
      (∀ t ∈ ["h".data, "hours".data, "hour".data], findMatch t (collapseWs str0) = none) →
      (∀ t ∈ ["m".data, "min".data, "minute".data, "mins".data, "minutes".data],
        findMatch t (collapseWs str0) = none) →
      (∀ t ∈ ["s".data, "sec".data, "second".data, "secs".data, "seconds".data],
        findMatch t (collapseWs str0) = none) →
      (∀ t ∈ ["ms".data, "millisecond".data, "milliseconds".data],
        findMatch t (collapseWs str0) = none) →
      (∀ t ∈ ["ns".data, "nanosecond".data, "nanoseconds".data],
        findMatch t (collapseWs str0) = none) →
      (∀ t ∈ ["µs".data, "microsecond".data, "microseconds".data, "us".data],
        findMatch t (collapseWs str0) = none) →
      Duration.readString str0 = ⟨0, 0, 0, 0, 0, 0, 0, 0⟩) ∧
    ((∀ t ∈ ["d".data, "days".data, "day".data], findMatch t (collapseWs str0) = none) →
      (Duration.readString str0).d = 0) ∧
    ((∀ t ∈ ["h".data, "hours".data, "hour".data], findMatch t (collapseWs str0) = none) →
      (Duration.readString str0).h = 0) ∧
    ((∀ t ∈ ["m".data, "min".data, "minute".data, "mins".data, "minutes".data],
        findMatch t (collapseWs str0) = none) → (Duration.readString str0).m = 0) ∧
    ((∀ t ∈ ["s".data, "sec".data, "second".data, "secs".data, "seconds".data],
        findMatch t (collapseWs str0) = none) → (Duration.readString str0).s = 0) ∧
    ((∀ t ∈ ["ms".data, "millisecond".data, "milliseconds".data],
        findMatch t (collapseWs str0) = none) → (Duration.readString str0).ms = 0) ∧
    ((∀ t ∈ ["ns".data, "nanosecond".data, "nanoseconds".data],
        findMatch t (collapseWs str0) = none) → (Duration.readString str0).ns = 0) ∧
    ((∀ t ∈ ["µs".data, "microsecond".data, "microseconds".data, "us".data],
        findMatch t (collapseWs str0) = none) → (Duration.readString str0).us = 0) := by
  refine ⟨readString_all_unmatched str0, fun hd => ?_, fun hh => ?_, fun hm => ?_,
    fun hs => ?_, fun hms => ?_, fun hns => ?_, fun hus => ?_⟩
  all_goals simp only [Duration.readString]
  · exact unitValue_zero _ _ hd
  · exact unitValue_zero _ _ hh
  · exact unitValue_zero _ _ hm
  · exact unitValue_zero _ _ hs
  · exact unitValue_zero _ _ hms
  · exact unitValue_zero _ _ hns
  · exact unitValue_zero _ _ hus

/-- Witness for C7 at the concrete garbage input `"hello world!"`, where
no alias matches anywhere: the parse succeeds and yields the zero
duration object. -/
theorem readString_silent_zero_witness :
    Duration.readString "hello world!".data = ⟨0, 0, 0, 0, 0, 0, 0, 0⟩ ∧
    (Duration.readString "hello world!".data).d = 0 :=
  ⟨(readString_silent_zero "hello world!".data).1 (by decide) (by decide) (by decide)
    (by decide) (by decide) (by decide) (by decide),
    (readString_silent_zero "hello world!".data).2.1 (by decide)⟩

/-- C9.  Constructing a duration from a string never raises: the
constructor catches the ISO parser's error and falls back to the total
free-form scan; in particular the malformed ISO-looking `"PXYZ"` is
rejected by `parseISOString` yet yields the zero duration. -/
theorem ofString_total :
    (∀ str : List Char, Duration.ofStringE str = Except.ok (Duration.ofString str)) ∧
    Duration.parseISOString "PXYZ".data = none ∧
    Duration.ofString "PXYZ".data = ⟨0⟩ := by
  refine ⟨fun str => ?_, by decide, ?_⟩
  · rw [Duration.ofStringE, Duration.ofString]
    cases Duration.parseISOString str <;> rfl
  · rw [Duration.ofString]
    have hiso : Duration.parseISOString "PXYZ".data = none := by decide
    rw [hiso]
    have hz := readString_all_unmatched "PXYZ".data (by decide) (by decide) (by decide)
      (by decide) (by decide) (by decide) (by decide)
    rw [hz]

/-! ## C4: the documented free-form parsing example -/

/-- The scalar produced for the §8 example string. -/
lemma readString_c4_raw :
    (Duration.readString
      "4090 sec 4939 days 7342 hour 2324milliseconds 4344 min".data).raw
      = 453425532324 := by
  rw [readString_eval _ 4939 7342 4344 4090 2324 0 0 (by decide) (by decide) (by decide)
    (by decide) (by decide) (by decide) (by decide)]
  norm_num [Duration.DAY, Duration.HOUR, Duration.MINUTE, Duration.SECOND,
    Duration.MICROSECOND, Duration.NANOSECOND]

lemma c4_getters :
    Duration.d ⟨(453425532324 : ℚ)⟩ = 5247 ∧ Duration.h ⟨(453425532324 : ℚ)⟩ = 23 ∧
    Duration.m ⟨(453425532324 : ℚ)⟩ = 32 ∧ Duration.s ⟨(453425532324 : ℚ)⟩ = 12 ∧
    Duration.ms ⟨(453425532324 : ℚ)⟩ = 324 := by
  have hk : (453425532324 : ℚ) = ((453425532324000000 : ℤ) : ℚ) / 1000000 := by norm_num
  refine ⟨?_, ?_, ?_, ?_, ?_⟩
  · rw [hk, d_eval_ns]; decide
  · rw [hk, h_eval_ns]; decide
  · rw [hk, m_eval_ns]; decide
  · rw [hk, s_eval_ns]; decide
  · rw [hk, ms_eval_ns]; decide

/-- C4 counterexample.  The claim's re-decomposition values
`d=5246, h=13, m=52, s=12, ms=324` are false for the scalar the parser
actually produces on the example string: the true decomposition starts
with `d = 5247`. -/
theorem fromString_example_claimed_decomposition_false :
    ¬(Duration.d ⟨(Duration.readString
        "4090 sec 4939 days 7342 hour 2324milliseconds 4344 min".data).raw⟩ = 5246 ∧
      Duration.h ⟨(Duration.readString
        "4090 sec 4939 days 7342 hour 2324milliseconds 4344 min".data).raw⟩ = 13 ∧
      Duration.m ⟨(Duration.readString
        "4090 sec 4939 days 7342 hour 2324milliseconds 4344 min".data).raw⟩ = 52 ∧
      Duration.s ⟨(Duration.readString
        "4090 sec 4939 days 7342 hour 2324milliseconds 4344 min".data).raw⟩ = 12 ∧
      Duration.ms ⟨(Duration.readString
        "4090 sec 4939 days 7342 hour 2324milliseconds 4344 min".data).raw⟩ = 324) := by
  rw [readString_c4_raw]
  intro hc
  have hd := c4_getters.1
  rw [hc.1] at hd
  exact absurd hd (by decide)

/-- C4 as amended.  The free-form parse of
`"4090 sec 4939 days 7342 hour 2324milliseconds 4344 min"` extracts
`days=4939, hours=7342, minutes=4344, seconds=4090, ms=2324`; the
combined scalar is `453425532324` ms, and re-decomposing it through the
modular formulas yields `d=5247, h=23, m=32, s=12, ms=324`. -/
theorem fromString_example_extraction :
    (Duration.readString
      "4090 sec 4939 days 7342 hour 2324milliseconds 4344 min".data).d = 4939 ∧
    (Duration.readString
      "4090 sec 4939 days 7342 hour 2324milliseconds 4344 min".data).h = 7342 ∧
    (Duration.readString
      "4090 sec 4939 days 7342 hour 2324milliseconds 4344 min".data).m = 4344 ∧
    (Duration.readString
      "4090 sec 4939 days 7342 hour 2324milliseconds 4344 min".data).s = 4090 ∧
    (Duration.readString
      "4090 sec 4939 days 7342 hour 2324milliseconds 4344 min".data).ms = 2324 ∧
    (Duration.readString
      "4090 sec 4939 days 7342 hour 2324milliseconds 4344 min".data).raw = 453425532324 ∧
    Duration.d ⟨(Duration.readString
      "4090 sec 4939 days 7342 hour 2324milliseconds 4344 min".data).raw⟩ = 5247 ∧
    Duration.h ⟨(Duration.readString
      "4090 sec 4939 days 7342 hour 2324milliseconds 4344 min".data).raw⟩ = 23 ∧
    Duration.m ⟨(Duration.readString
      "4090 sec 4939 days 7342 hour 2324milliseconds 4344 min".data).raw⟩ = 32 ∧
    Duration.s ⟨(Duration.readString
      "4090 sec 4939 days 7342 hour 2324milliseconds 4344 min".data).raw⟩ = 12 ∧
    Duration.ms ⟨(Duration.readString
      "4090 sec 4939 days 7342 hour 2324milliseconds 4344 min".data).raw⟩ = 324 := by
  rw [readString_c4_raw]
  exact ⟨by decide, by decide, by decide, by decide, by decide, rfl,
    c4_getters.1, c4_getters.2.1, c4_getters.2.2.1, c4_getters.2.2.2.1, c4_getters.2.2.2.2⟩

/-! ## C5 / C6: the ISO 8601 grammar -/

lemma parseDec_frac_45_500 : parseDec "45.500".data = 91 / 2 := by
  show (digitsToNat (['4', '5'] : List Char) : ℚ) +
      (digitsToNat (['5', '0', '0'] : List Char) : ℚ) /
        (10 ^ (['5', '0', '0'] : List Char).length : ℚ) = 91 / 2
  rw [show digitsToNat (['4', '5'] : List Char) = 45 from by decide,
    show digitsToNat (['5', '0', '0'] : List Char) = 500 from by decide,
    show (['5', '0', '0'] : List Char).length = 3 from by decide]
  push_cast
  norm_num

lemma readString_time_part :
    (Duration.readString "1h30m45.500s".data).raw = 5445500 := by
  have hsec : unitValue (collapseWs "1h30m45.500s".data)
      ["s".data, "sec".data, "second".data, "secs".data, "seconds".data] = 91 / 2 := by
    rw [unitValue, matchUnit_found _ _ "45.500".data (by decide), parseDec_frac_45_500,
      orQ, if_pos (by norm_num)]
  rw [readString_eval _ 0 1 30 (91 / 2) 0 0 0 (by decide) (by decide) (by decide) hsec
    (by decide) (by decide) (by decide)]
  norm_num [Duration.DAY, Duration.HOUR, Duration.MINUTE, Duration.SECOND,
    Duration.MICROSECOND, Duration.NANOSECOND]

set_option maxRecDepth 10000 in
lemma parseISOString_iso1 :
    Duration.parseISOString "PT1H30M45.500S".data
      = some ((Duration.readString "1h30m45.500s".data).raw + 0) := rfl

set_option maxRecDepth 10000 in
lemma parseISOString_iso2 :
    Duration.parseISOString "P15DT1H30M45.500S".data
      = some ((Duration.readString "1h30m45.500s".data).raw + 0) := rfl

lemma ofString_iso1 : Duration.ofString "PT1H30M45.500S".data = ⟨5445500⟩ := by
  rw [Duration.ofString, parseISOString_iso1, readString_time_part]
  norm_num

lemma ofString_iso2 : Duration.ofString "P15DT1H30M45.500S".data = ⟨5445500⟩ := by
  rw [Duration.ofString, parseISOString_iso2, readString_time_part]
  norm_num

lemma getters_5445500 :
    Duration.d ⟨(5445500 : ℚ)⟩ = 0 ∧ Duration.h ⟨(5445500 : ℚ)⟩ = 1 ∧
    Duration.m ⟨(5445500 : ℚ)⟩ = 30 ∧ Duration.s ⟨(5445500 : ℚ)⟩ = 45 ∧
    Duration.ms ⟨(5445500 : ℚ)⟩ = 500 := by
  have hk : (5445500 : ℚ) = ((5445500000000 : ℤ) : ℚ) / 1000000 := by norm_num
  refine ⟨?_, ?_, ?_, ?_, ?_⟩
  · rw [hk, d_eval_ns]; decide
  · rw [hk, h_eval_ns]; decide
  · rw [hk, m_eval_ns]; decide
  · rw [hk, s_eval_ns]; decide
  · rw [hk, ms_eval_ns]; decide

lemma toISOString_5445500 :
    Duration.toISOString ⟨(5445500 : ℚ)⟩ = "PT1H30M45.500S".data := by
  obtain ⟨hd, hh, hm, hs, hms⟩ := getters_5445500
  rw [Duration.toISOString, hd, hh, hm, hs, hms]
  decide

/-- C5 (code evaluation).  `"PT1H30M45.500S"` parses to `5445500` ms
(1 h 30 min 45.5 s) and `toISOString` reproduces the identical string;
but on `"P15DT1H30M45.500S"` the parser returns the same `5445500` ms —
the 15-day date component is read into `components[0]` and then never
added — so `toISOString` yields `"PT1H30M45.500S"`, not the input, and
the documented/tested day round-trip fails. -/
theorem parseISOString_roundtrip_eval :
    Duration.parseISOString "PT1H30M45.500S".data = some 5445500 ∧
    Duration.toISOString (Duration.ofString "PT1H30M45.500S".data) = "PT1H30M45.500S".data ∧
    Duration.parseISOString "P15DT1H30M45.500S".data = some 5445500 ∧
    Duration.toISOString (Duration.ofString "P15DT1H30M45.500S".data) = "PT1H30M45.500S".data ∧
    Duration.toISOString (Duration.ofString "P15DT1H30M45.500S".data) ≠ "P15DT1H30M45.500S".data := by
  have h1 : Duration.parseISOString "PT1H30M45.500S".data = some 5445500 := by
    rw [parseISOString_iso1, readString_time_part]; norm_num
  have h2 : Duration.parseISOString "P15DT1H30M45.500S".data = some 5445500 := by
    rw [parseISOString_iso2, readString_time_part]; norm_num
  refine ⟨h1, ?_, h2, ?_, ?_⟩
  · rw [ofString_iso1, toISOString_5445500]
  · rw [ofString_iso2, toISOString_5445500]
  · rw [ofString_iso2, toISOString_5445500]
    decide

/-- One-step unfolding of the fueled ISO parser. -/
lemma parseISOFuel_succ (fuel : ℕ) (str : List Char) :
    Duration.parseISOFuel (fuel + 1) str =
      (if ((lowerStr str).head? = some 'p') ∧ ('t' ∈ lowerStr str) then
        if ('y' ∈ (splitOnC 't' ((lowerStr str).drop 1)).headD []) ∨
            ('m' ∈ (splitOnC 't' ((lowerStr str).drop 1)).headD []) then none
        else
          some (
            (match (splitOnC 't' ((lowerStr str).drop 1))[1]? with
              | some c =>
                match Duration.parseISOFuel fuel c with
                | some r => r
                | none => (Duration.readString c).raw
              | none => 0) +
            (match (splitOnC 't' ((lowerStr str).drop 1))[2]? with
              | some c =>
                match Duration.parseISOFuel fuel c with
                | some r => r
                | none => (Duration.readString c).raw
              | none => 0))
      else none) := rfl

/-- C6.  `parseISOString` raises (returns `none`) exactly when the
lowercased input does not start with `p`, or contains no `t`, or the part
before the first `t` (the date part) contains a `y` or an `m`; on every
other input it returns a scalar magnitude. -/
theorem parseISOString_error_iff (str : List Char) :
    Duration.parseISOString str = none ↔
      ¬((lowerStr str).head? = some 'p') ∨ ¬('t' ∈ lowerStr str) ∨
      ('y' ∈ (splitOnC 't' ((lowerStr str).drop 1)).headD []) ∨
      ('m' ∈ (splitOnC 't' ((lowerStr str).drop 1)).headD []) := by
  rw [Duration.parseISOString, parseISOFuel_succ]
  split_ifs with h1 h2
  · simp only [eq_self_iff_true, true_iff]
    tauto
  · simp only [reduceCtorEq, false_iff]
    tauto
  · simp only [eq_self_iff_true, true_iff]
    tauto

/-! ## C8 / C10: word rendering -/

lemma getters_121920 :
    Duration.d ⟨(121920 : ℚ)⟩ = 0 ∧ Duration.h ⟨(121920 : ℚ)⟩ = 0 ∧
    Duration.m ⟨(121920 : ℚ)⟩ = 2 ∧ Duration.s ⟨(121920 : ℚ)⟩ = 1 ∧
    Duration.ms ⟨(121920 : ℚ)⟩ = 920 ∧ Duration.us ⟨(121920 : ℚ)⟩ = 0 ∧
    Duration.ns ⟨(121920 : ℚ)⟩ = 0 := by
  have hk : (121920 : ℚ) = ((121920000000 : ℤ) : ℚ) / 1000000 := by norm_num
  refine ⟨?_, ?_, ?_, ?_, ?_, ?_, ?_⟩
  · rw [hk, d_eval_ns]; decide
  · rw [hk, h_eval_ns]; decide
  · rw [hk, m_eval_ns]; decide
  · rw [hk, s_eval_ns]; decide
  · rw [hk, ms_eval_ns]; decide
  · rw [hk, us_eval_ns]; decide
  · rw [hk, ns_eval_ns]; decide

/-- C8.  The duration of `121920` ms (minutes 2, seconds 1, ms 920)
renders in word format to the full expected string — with `one second`
singular — and in particular that string contains the exact phrase
`"two minutes, one second, nine hundred and twenty milliseconds"`. -/
theorem toWordString_121920 :
    Duration.toWordString ⟨(121920 : ℚ)⟩ =
      ("zero days, zero hours, two minutes, one second, " ++
        "nine hundred and twenty milliseconds, zero microseconds, zero nanoseconds").data ∧
    containsSeg "two minutes, one second, nine hundred and twenty milliseconds".data
      (Duration.toWordString ⟨(121920 : ℚ)⟩) = true := by
  obtain ⟨hd, hh, hm, hs, hms, hus, hns⟩ := getters_121920
  constructor <;>
    · rw [Duration.toWordString, Duration.unitList, hd, hh, hm, hs, hms, hus, hns]
      decide

/-- C10.  The renderer applied to `10` yields the one-character
whitespace string `" "` (not `"ten"`): whenever the next-higher place is
a `{tens}` template and holds digit `1` while the current digit is `0`,
the teen-pair branch consumes both digits using the empty entry at index
`0` of the `teens` table, so no tens word is emitted for that pair. -/
theorem inWords_ten :
    InWords 10 = " ".data ∧
    (∀ (i : ℕ) (rest : List ℕ),
      startsWithL "{tens}".data (getTenPower (i + 1)) = true →
      wordsAux i (0 :: 1 :: rest) =
        (teens.getD 0 [] ++ ' ' :: stripOnesWs (getTenPower i)) :: wordsAux (i + 2) rest ∧
      teens.getD 0 [] = ([] : List Char)) := by
  refine ⟨by decide, fun i rest hten => ⟨?_, rfl⟩⟩
  simp only [wordsAux]
  simp [hten]

/-- Witness for C10's quantified clause at place `0` (the number `10`
itself): the tens template at place 1 triggers the teen-pair branch. -/
theorem inWords_ten_witness :
    startsWithL "{tens}".data (getTenPower 1) = true ∧
    wordsAux 0 (0 :: 1 :: []) =
      (teens.getD 0 [] ++ ' ' :: stripOnesWs (getTenPower 0)) :: wordsAux 2 [] :=
  ⟨by decide, ((inWords_ten.2 0 [] (by decide)).1)⟩
